import Mathlib

/-!
Shallow embedding of `snowflake_mcp_server.py` (a single-file MCP server that
executes one SQL statement against Snowflake and formats the outcome).

The Python module interacts with the outside world through: the process
environment, the filesystem (private-key file), the PEM decoder, and the
Snowflake connector (connect / execute / fetch / close).  All of these are
modelled by a `World` record of explicit oracles, so every function of the
module becomes a pure Lean function of the configuration, the world and its
arguments.  Observable side effects that the claims talk about (which SQL text
was submitted, which close calls happened) are returned as an event trace.
-/

/-- Observable side effects of one call to `execute_snowflake_query`. -/
inductive Event where
  | executedSQL (sql : String)
  | contextQueried
  | cursorCloseCalled
  | connCloseCalled
deriving Repr, DecidableEq

/-- Python exception values that the module distinguishes.  In the Python
class hierarchy `snowflake.connector.errors.ProgrammingError` is a subclass of
`snowflake.connector.errors.DatabaseError`; `ValueError` (raised by
`_load_private_key`) and anything else are unrelated to both.  The payload is
`str(e)`. -/
inductive PyExc where
  | programmingError (s : String)
  | databaseError (s : String)
  | valueError (s : String)
  | otherError (s : String)
deriving Repr, DecidableEq

/-- `str(e)` of the exception. -/
def PyExc.msg : PyExc → String
  | .programmingError s => s
  | .databaseError s => s
  | .valueError s => s
  | .otherError s => s

/-- Instance test for `except snowflake.connector.errors.ProgrammingError`. -/
def PyExc.isProgrammingError : PyExc → Bool
  | .programmingError _ => true
  | _ => false

/-- Instance test for `except snowflake.connector.errors.DatabaseError`;
`ProgrammingError` is a subclass, so it also matches this handler. -/
def PyExc.isDatabaseError : PyExc → Bool
  | .programmingError _ => true
  | .databaseError _ => true
  | _ => false

/-- The keyword-argument dictionary built by `get_connection_params` and
mutated by the override block of `execute_snowflake_query`.  An `Option`
field is `none` when the corresponding key is absent from the dict. -/
structure ConnParams where
  account : String
  user : String
  authenticator : String
  warehouse : Option String := none
  database : Option String := none
  schema : Option String := none
  role : Option String := none
  password : Option String := none
  private_key : Option String := none
deriving Repr, DecidableEq

/-- What `cursor.execute(sql_query)` produces: a described result set
(`cursor.description` non-empty) with its full row source, a DDL/DML outcome
with the connector `rowcount`, or a raised exception. -/
inductive QueryResult where
  | tabular (columns : List String) (rows : List (List String))
  | dml (rowcount : Int)
  | raises (e : PyExc)
deriving Repr, DecidableEq

/-- The external world: filesystem, PEM decoder and Snowflake connector.
`fsRead` returns the file contents or the `str` of the raised `OSError`;
`decodeKey` models `load_pem_private_key` (the decoded key material is kept
abstract as a `String`); `contextQuery` models the
`SELECT CURRENT_DATABASE(), CURRENT_SCHEMA(), CURRENT_WAREHOUSE()` round trip
(a row of three nullable scalars, or `none` when `fetchone` yields no row);
`closeCursor` and `closeConn` tell whether the close calls raise; `renderOk`
tells whether `DataFrame.to_string` succeeds. -/
structure World where
  fsRead : String → Except String String
  decodeKey : String → Option String → Except String String
  connect : ConnParams → Except PyExc Unit
  runQuery : ConnParams → String → QueryResult
  contextQuery : Except PyExc (Option (Option String × Option String × Option String))
  closeCursor : Except String Unit
  closeConn : Except String Unit
  renderOk : Bool

/-- `pathlib.Path(p).exists()`, modelled as readability of the path. -/
def World.fileExists (w : World) (p : String) : Bool :=
  match w.fsRead p with
  | .ok _ => true
  | .error _ => false

/-- Python truthiness of an optional string (`None` and `""` are falsy). -/
def pyTruthy : Option String → Bool
  | none => false
  | some s => !(s == "")

/-- The `SnowflakeConfig` attribute record, as set up by `__init__`. -/
structure SnowflakeConfig where
  account_identifier : String
  username : String
  password : Option String
  private_key_path : Option String
  private_key_passphrase : Option String
  authenticator : String
  warehouse : Option String
  database : Option String
  schema : Option String
  role : Option String
  max_rows : Int
deriving Repr, DecidableEq

/-- The `context` dictionary of a success outcome. -/
structure QueryContext where
  database : String
  schema : String
  warehouse : String
deriving Repr, DecidableEq

/-- A pandas DataFrame, reduced to what the module observes of it:
column labels and string-rendered cells. -/
structure DataFrame where
  columns : List String
  rows : List (List String)
deriving Repr, DecidableEq

/-- The result dictionary of `execute_snowflake_query`.  An `Option` field is
`none` exactly when the corresponding key is absent from the returned dict
(success dicts carry the result fields, failure dicts the error fields). -/
structure QueryOutcome where
  success : Bool
  sql_query : String
  result_df : Option DataFrame := none
  row_count : Option Nat := none
  total_rows : Option String := none
  column_count : Option Nat := none
  context : Option QueryContext := none
  truncated : Option Bool := none
  affected_rows : Option Int := none
  error : Option String := none
  error_type : Option String := none
deriving Repr, DecidableEq

/-- `x or "N/A"` applied to a nullable scalar of the context row. -/
def orNA : Option String → String
  | none => "N/A"
  | some s => if s = "" then "N/A" else s

/-- `SnowflakeConfig._validate_config` (lines 59-76): require at least one of
password / private-key path / non-default authenticator, and when a
private-key path is configured, that the file exists on disk. -/
def SnowflakeConfig.validate_config (c : SnowflakeConfig) (w : World) : Except String Unit :=
  let has_password := pyTruthy c.password
  let has_private_key := pyTruthy c.private_key_path
  let has_sso := c.authenticator != "snowflake"
  if !(has_password || has_private_key || has_sso) then
    .error "At least one authentication method must be configured"
  else if has_private_key && !(w.fileExists (c.private_key_path.getD "")) then
    .error ("Private key file not found: " ++ c.private_key_path.getD "")
  else
    .ok ()

/-- `SnowflakeConfig._load_private_key` (lines 104-118): read the key file and
decode it; any failure is re-raised as a `ValueError` carrying the path and
the cause. -/
def SnowflakeConfig.load_private_key (c : SnowflakeConfig) (w : World) : Except PyExc String :=
  let path := c.private_key_path.getD ""
  match w.fsRead path with
  | .error e => .error (.valueError ("Failed to load private key from " ++ path ++ ": " ++ e))
  | .ok key_data =>
    let passphrase := if pyTruthy c.private_key_passphrase then c.private_key_passphrase else none
    match w.decodeKey key_data passphrase with
    | .error e => .error (.valueError ("Failed to load private key from " ++ path ++ ": " ++ e))
    | .ok private_key => .ok private_key

/-- `SnowflakeConfig.get_connection_params` (lines 78-102). -/
def SnowflakeConfig.get_connection_params (c : SnowflakeConfig) (w : World) :
    Except PyExc ConnParams :=
  let params : ConnParams := {
    account := c.account_identifier
    user := c.username
    authenticator := c.authenticator
    warehouse := if pyTruthy c.warehouse then c.warehouse else none
    database := if pyTruthy c.database then c.database else none
    schema := if pyTruthy c.schema then c.schema else none
    role := if pyTruthy c.role then c.role else none }
  if pyTruthy c.password then
    .ok { params with password := c.password }
  else if pyTruthy c.private_key_path then
    match c.load_private_key w with
    | .ok k => .ok { params with private_key := some k }
    | .error e => .error e
  else
    .ok params

/-- The override block of `execute_snowflake_query` (lines 173-179). -/
def applyOverrides (p : ConnParams) (database schema warehouse : Option String) : ConnParams :=
  let p1 := if pyTruthy database then { p with database := database } else p
  let p2 := if pyTruthy schema then { p1 with schema := schema } else p1
  if pyTruthy warehouse then { p2 with warehouse := warehouse } else p2

/-- The `except` chain of `execute_snowflake_query` (lines 257-285), first
match wins: `ProgrammingError`, then `DatabaseError`, then `Exception`. -/
def classifyError (e : PyExc) (sql_query : String) : QueryOutcome :=
  if e.isProgrammingError then
    { success := false, sql_query := sql_query
      error := some ("SQL Error: " ++ e.msg), error_type := some "SQL_ERROR" }
  else if e.isDatabaseError then
    { success := false, sql_query := sql_query
      error := some ("Database Error: " ++ e.msg), error_type := some "DATABASE_ERROR" }
  else
    { success := false, sql_query := sql_query
      error := some ("Unexpected error: " ++ e.msg), error_type := some "SYSTEM_ERROR" }

/-- The `finally` block (lines 287-296): one try around both closes, any
exception logged and swallowed.  If `cursor.close()` raises, the statement
`conn.close()` is never reached. -/
def cleanupEvents (w : World) (cursorOpen connOpen : Bool) : List Event :=
  if cursorOpen then
    match w.closeCursor with
    | .error _ => [Event.cursorCloseCalled]
    | .ok _ =>
      if connOpen then Event.cursorCloseCalled :: [Event.connCloseCalled]
      else [Event.cursorCloseCalled]
  else if connOpen then [Event.connCloseCalled]
  else []

/-- The tabular branch of `execute_snowflake_query` (lines 190-235):
`fetchmany(max_rows)`, truncation probe by one extra `fetchone`, and the
best-effort current-context introspection with fallback to the resolved
connection parameters. -/
def tabularOutcome (cfg : SnowflakeConfig) (w : World) (conn_params : ConnParams)
    (sql_query : String) (columns : List String) (srcRows : List (List String)) :
    QueryOutcome :=
  let data := srcRows.take cfg.max_rows.toNat
  let row_count := data.length
  let remaining_rows := (srcRows.drop cfg.max_rows.toNat).head?
  let truncated := remaining_rows.isSome
  let total_rows := if truncated then toString row_count ++ "+" else toString row_count
  let fallback : QueryContext := {
    database := conn_params.database.getD "N/A"
    schema := conn_params.schema.getD "N/A"
    warehouse := conn_params.warehouse.getD "N/A" }
  let context := match w.contextQuery with
    | .error _ => fallback
    | .ok none => fallback
    | .ok (some (d, s, wh)) => { database := orNA d, schema := orNA s, warehouse := orNA wh }
  { success := true
    sql_query := sql_query
    result_df := some { columns := columns, rows := data }
    row_count := some row_count
    total_rows := some total_rows
    column_count := some columns.length
    context := some context
    truncated := some truncated
    affected_rows := none }

/-- The DDL/DML branch of `execute_snowflake_query` (lines 236-255):
synthetic one-column status frame and the clamped `rowcount`. -/
def dmlOutcome (conn_params : ConnParams) (sql_query : String) (rowcount : Int) :
    QueryOutcome :=
  let affected_rows := if 0 ≤ rowcount then rowcount else 0
  { success := true
    sql_query := sql_query
    result_df := some {
      columns := ["status"]
      rows := [["Statement executed successfully. Rows affected: " ++ toString affected_rows]] }
    row_count := some 1
    total_rows := some "1"
    column_count := some 1
    context := some {
      database := conn_params.database.getD "N/A"
      schema := conn_params.schema.getD "N/A"
      warehouse := conn_params.warehouse.getD "N/A" }
    truncated := some false
    affected_rows := some affected_rows }

/-- `execute_snowflake_query` (lines 146-296), returning the result dict and
the trace of observable connector calls.  `conn` and `cursor` start as `None`;
they are both open exactly when `connect` succeeded (cursor creation itself is
assumed not to raise), so the cleanup runs with both flags equal. -/
def execute_snowflake_query (cfg : SnowflakeConfig) (w : World) (sql_query : String)
    (database schema warehouse : Option String) : QueryOutcome × List Event :=
  match cfg.get_connection_params w with
  | .error e => (classifyError e sql_query, cleanupEvents w false false)
  | .ok params =>
    let conn_params := applyOverrides params database schema warehouse
    match w.connect conn_params with
    | .error e => (classifyError e sql_query, cleanupEvents w false false)
    | .ok _ =>
      match w.runQuery conn_params sql_query with
      | .raises e =>
          (classifyError e sql_query, Event.executedSQL sql_query :: cleanupEvents w true true)
      | .tabular columns rows =>
          (tabularOutcome cfg w conn_params sql_query columns rows,
           Event.executedSQL sql_query :: Event.contextQueried :: cleanupEvents w true true)
      | .dml rowcount =>
          (dmlOutcome conn_params sql_query rowcount,
           Event.executedSQL sql_query :: cleanupEvents w true true)

/-- `DataFrame.to_string(index=False)`, reduced to a deterministic rendering:
the column labels then each row, one line apiece. -/
def renderDF (df : DataFrame) : String :=
  String.intercalate "\n"
    (String.intercalate " " df.columns :: df.rows.map (fun r => String.intercalate " " r))

/-- `df.shape` as printed by Python. -/
def dfShape (df : DataFrame) : String :=
  "(" ++ toString df.rows.length ++ ", " ++ toString df.columns.length ++ ")"

/-- The result-summary block of the success formatter (lines 353-365): one
line chosen by the presence of the `affected_rows` key, not by its value. -/
def result_summary_lines (r : QueryOutcome) : List String :=
  match r.affected_rows with
  | some n => ["Rows affected: " ++ toString n]
  | none =>
    if r.truncated.getD false then
      ["Results: " ++ (r.total_rows.getD "") ++ " rows (showing first "
        ++ toString (r.row_count.getD 0) ++ "), " ++ toString (r.column_count.getD 0)
        ++ " columns"]
    else
      ["Results: " ++ toString (r.row_count.getD 0) ++ " rows, "
        ++ toString (r.column_count.getD 0) ++ " columns"]

/-- The success branch of the formatter in `execute_snowflake_sql_query`
(lines 340-393), as the list of output lines joined by the final newline
join.  Success dicts always carry the result fields, so the `getD` defaults
are never observed. -/
def format_success_lines (cfg : SnowflakeConfig) (w : World) (r : QueryOutcome) :
    List String :=
  let ctx := r.context.getD { database := "N/A", schema := "N/A", warehouse := "N/A" }
  let df := r.result_df.getD { columns := [], rows := [] }
  let head_lines := ["✅ Query executed successfully", "",
    "SQL: " ++ r.sql_query, "",
    "Context: Database=" ++ ctx.database ++ ", Schema=" ++ ctx.schema
      ++ ", Warehouse=" ++ ctx.warehouse, ""]
  let data_lines := ["", "Data:"] ++
    (if w.renderOk then [renderDF df]
     else ["Error formatting results for display.",
           "Data shape: " ++ dfShape df,
           "Raw data available but too complex to display."])
  let trunc_lines :=
    if r.truncated.getD false then
      ["", "⚠️  Results truncated. Showing first " ++ toString cfg.max_rows ++ " rows only.",
       "Consider adding LIMIT clause or filtering your query for better performance."]
    else []
  head_lines ++ result_summary_lines r ++ data_lines ++ trunc_lines

/-- The failure branch of the formatter (lines 395-426). -/
def format_error_lines (r : QueryOutcome) : List String :=
  let error_type := r.error_type.getD "UNKNOWN_ERROR"
  let base := ["❌ Query failed (" ++ error_type ++ ")", "",
    "SQL: " ++ r.sql_query, "",
    "Error: " ++ r.error.getD ""]
  if error_type = "SQL_ERROR" then
    base ++ ["", "💡 Tips:", "- Check your SQL syntax", "- Verify table and column names",
      "- Ensure you have proper permissions"]
  else if error_type = "DATABASE_ERROR" then
    base ++ ["", "💡 Tips:", "- Check your connection settings", "- Verify database/schema exists",
      "- Ensure warehouse is running"]
  else
    base

/-- Python `str.strip()`: drop leading and trailing whitespace.  (Python
also strips a few exotic unicode space characters that `Char.isWhitespace`
does not cover; no input in scope uses them.) -/
def pyStrip (s : String) : String :=
  ⟨((s.data.dropWhile Char.isWhitespace).reverse.dropWhile Char.isWhitespace).reverse⟩

/-- The tool endpoint `execute_snowflake_sql_query` (lines 299-426): reject
empty / whitespace-only input, strip the query, delegate to the executor and
format.  The security-keyword check only emits a log line and never changes
the behaviour, so it has no observable effect in the model.  Returned are the
response text and the executor event trace (empty when the executor was
never invoked). -/
def execute_snowflake_sql_query (cfg : SnowflakeConfig) (w : World) (query : String)
    (database schema warehouse : Option String) : String × List Event :=
  if query = "" ∨ pyStrip query = "" then
    ("Error: Query cannot be empty", [])
  else
    let result := execute_snowflake_query cfg w (pyStrip query) database schema warehouse
    let text :=
      if result.1.success then String.intercalate "\n" (format_success_lines cfg w result.1)
      else String.intercalate "\n" (format_error_lines result.1)
    (text, result.2)

/-- `SnowflakeConfig._get_required_env` (lines 52-57): `os.getenv` then a
truthiness check (`None` and `""` both fail). -/
def get_required_env (env : String → Option String) (key : String) : Except String String :=
  match env key with
  | none => .error ("Required environment variable " ++ key ++ " is not set")
  | some v =>
    if v = "" then .error ("Required environment variable " ++ key ++ " is not set")
    else .ok v

/-- Digits-to-number accumulator for `pyInt`. -/
def digitsToNat (cs : List Char) : Nat :=
  cs.foldl (fun acc c => acc * 10 + (c.toNat - '0'.toNat)) 0

/-- Python `int(s)` on a decimal string: surrounding whitespace is ignored,
an optional single sign, then a non-empty run of digits; anything else raises
`ValueError`.  (Python additionally accepts underscore group separators and
non-ASCII digits, which no setting in scope uses; not modelled.) -/
def pyInt (s : String) : Option Int :=
  let cs := (pyStrip s).data
  match cs with
  | '+' :: rest =>
    if rest ≠ [] ∧ rest.all Char.isDigit then some (Int.ofNat (digitsToNat rest)) else none
  | '-' :: rest =>
    if rest ≠ [] ∧ rest.all Char.isDigit then some (-(Int.ofNat (digitsToNat rest))) else none
  | _ =>
    if cs ≠ [] ∧ cs.all Char.isDigit then some (Int.ofNat (digitsToNat cs)) else none

/-- `SnowflakeConfig.__init__` (lines 28-50): required settings, optional
settings, `int` parse of `SNOWFLAKE_MAX_ROWS` (default `"1000"`), then
`_validate_config`.  Any raised `ValueError` becomes the `.error` message. -/
def SnowflakeConfig.init (w : World) (env : String → Option String) :
    Except String SnowflakeConfig :=
  match get_required_env env "SNOWFLAKE_ACCOUNT" with
  | .error e => .error e
  | .ok account_identifier =>
  match get_required_env env "SNOWFLAKE_USERNAME" with
  | .error e => .error e
  | .ok username =>
  match pyInt ((env "SNOWFLAKE_MAX_ROWS").getD "1000") with
  | none =>
    .error ("invalid literal for int() with base 10: "
      ++ (env "SNOWFLAKE_MAX_ROWS").getD "1000")
  | some max_rows =>
    let cfg : SnowflakeConfig := {
      account_identifier := account_identifier
      username := username
      password := env "SNOWFLAKE_PASSWORD"
      private_key_path := env "SNOWFLAKE_PRIVATE_KEY_PATH"
      private_key_passphrase := env "SNOWFLAKE_PRIVATE_KEY_PASSPHRASE"
      authenticator := (env "SNOWFLAKE_AUTHENTICATOR").getD "snowflake"
      warehouse := env "SNOWFLAKE_WAREHOUSE"
      database := env "SNOWFLAKE_DATABASE"
      schema := env "SNOWFLAKE_SCHEMA"
      role := env "SNOWFLAKE_ROLE"
      max_rows := max_rows }
    match cfg.validate_config w with
    | .error e => .error e
    | .ok _ => .ok cfg

/-- The module-level startup block (lines 131-137): build the configuration,
or `sys.exit(1)` on any exception. -/
def startupConfig (w : World) (env : String → Option String) :
    Except Nat SnowflakeConfig :=
  match SnowflakeConfig.init w env with
  | .ok c => .ok c
  | .error _ => .error 1

/-!
### Proof helpers

String-prefix reasoning for the formatter-line claims: `strHasPrefix p s`
states that the text of `s` begins with the text of `p`.
-/

theorem string_data_inj {a b : String} (h : a.data = b.data) : a = b :=
  congrArg String.mk h

/-- `s` starts with the text `p`. -/
def strHasPrefix (p s : String) : Prop := ∃ rest, s = p ++ rest

theorem strHasPrefix_iff_data {p s : String} : strHasPrefix p s ↔ p.data <+: s.data := by
  constructor
  · rintro ⟨rest, rfl⟩
    exact ⟨rest.data, rfl⟩
  · rintro ⟨t, ht⟩
    refine ⟨⟨t⟩, ?_⟩
    exact (string_data_inj (show (p ++ (⟨t⟩ : String)).data = s.data from ht)).symm

theorem not_strHasPrefix_of_short {p s : String} (h : s.data.length < p.data.length) :
    ¬ strHasPrefix p s := by
  rw [strHasPrefix_iff_data]
  intro hpre
  exact absurd hpre.length_le (by omega)

theorem not_strHasPrefix_two {p s : String} {a b a' b' : Char} {pt st : List Char}
    (hp : p.data = a :: b :: pt) (hs : s.data = a' :: b' :: st)
    (hne : a ≠ a' ∨ b ≠ b') : ¬ strHasPrefix p s := by
  rw [strHasPrefix_iff_data, hp, hs]
  intro hpre
  rw [List.cons_prefix_cons] at hpre
  rcases hpre with ⟨h1, hpre⟩
  rw [List.cons_prefix_cons] at hpre
  rcases hne with hne | hne
  · exact hne h1
  · exact hne hpre.1

/-!
### Concrete fixtures used by witnesses and counterexamples
-/

/-- A baseline world: no readable files, a failing PEM decoder, a connector
that always connects, answers every statement as a zero-row DML, and fails
the context introspection; both closes succeed; rendering succeeds. -/
def worldBase : World := {
  fsRead := fun _ => .error "No such file or directory"
  decodeKey := fun _ _ => .error "Could not deserialize key data"
  connect := fun _ => .ok ()
  runQuery := fun _ _ => QueryResult.dml 0
  contextQuery := .error (PyExc.otherError "context unavailable")
  closeCursor := .ok ()
  closeConn := .ok ()
  renderOk := true }

/-- World whose queries return a 3-row, 1-column result set. -/
def worldC1 : World :=
  { worldBase with runQuery := fun _ _ => QueryResult.tabular ["A"] [["1"], ["2"], ["3"]] }

/-- World whose queries raise a `ProgrammingError`. -/
def worldC6 : World :=
  { worldBase with
    runQuery := fun _ _ => QueryResult.raises (PyExc.programmingError "syntax error line 1") }

/-- World where `/k.pem` exists but its contents do not decode. -/
def worldBadKey : World :=
  { worldBase with
    fsRead := fun p => if p = "/k.pem" then .ok "PEMDATA" else .error "No such file or directory" }

/-- World where `/k.pem` exists and decodes to key material. -/
def worldGoodKey : World :=
  { worldBadKey with
    decodeKey := fun d _ => if d = "PEMDATA" then .ok "DECODEDKEY" else .error "bad data" }

/-- World with a tabular result whose cursor close raises. -/
def worldBadClose : World :=
  { worldBase with
    runQuery := fun _ _ => QueryResult.tabular ["A"] [["1"]]
    closeCursor := .error "cursor close failed" }

/-- World whose queries return a DML outcome with connector rowcount -3. -/
def worldDmlNeg : World :=
  { worldBase with runQuery := fun _ _ => QueryResult.dml (-3) }

/-- Password-auth configuration with a row cap of 2. -/
def cfgPw : SnowflakeConfig := {
  account_identifier := "acct", username := "user", password := some "pw"
  private_key_path := none, private_key_passphrase := none
  authenticator := "snowflake", warehouse := none, database := none
  schema := none, role := none, max_rows := 2 }

/-- The configuration that `SnowflakeConfig.init` builds from `envP`. -/
def cfgPw1000 : SnowflakeConfig := { cfgPw with max_rows := 1000 }

/-- Password AND key-pair auth both configured. -/
def cfgTwoAuth : SnowflakeConfig :=
  { cfgPw1000 with private_key_path := some "/k.pem" }

/-- Key-pair-only configuration. -/
def cfgKeyOnly : SnowflakeConfig :=
  { cfgPw1000 with password := none, private_key_path := some "/k.pem" }

/-- SSO-only configuration (non-default authenticator, no password, no key). -/
def cfgSSO : SnowflakeConfig :=
  { cfgPw1000 with password := none, authenticator := "externalbrowser" }

/-- The configuration `SnowflakeConfig.init` builds from `envZeroRows`. -/
def cfgZeroRows : SnowflakeConfig := { cfgPw with max_rows := 0 }

/-- Connection params produced for `cfgPw`. -/
def pPw : ConnParams :=
  { account := "acct", user := "user", authenticator := "snowflake", password := some "pw" }

/-- Connection params produced for `cfgSSO`. -/
def pSSO : ConnParams :=
  { account := "acct", user := "user", authenticator := "externalbrowser" }

/-- Connection params produced for `cfgKeyOnly` under `worldGoodKey`. -/
def pKey : ConnParams :=
  { account := "acct", user := "user", authenticator := "snowflake"
    private_key := some "DECODEDKEY" }

/-- Environment: account, username and password set. -/
def envP : String → Option String := fun k =>
  if k = "SNOWFLAKE_ACCOUNT" then some "acct"
  else if k = "SNOWFLAKE_USERNAME" then some "user"
  else if k = "SNOWFLAKE_PASSWORD" then some "pw"
  else none

/-- Environment: password and an (existing) private-key path both set. -/
def envTwoAuth : String → Option String := fun k =>
  if k = "SNOWFLAKE_PRIVATE_KEY_PATH" then some "/k.pem" else envP k

/-- Environment: key-pair auth only. -/
def envKeyOnly : String → Option String := fun k =>
  if k = "SNOWFLAKE_ACCOUNT" then some "acct"
  else if k = "SNOWFLAKE_USERNAME" then some "user"
  else if k = "SNOWFLAKE_PRIVATE_KEY_PATH" then some "/k.pem"
  else none

/-- `envP` plus `SNOWFLAKE_MAX_ROWS=0`. -/
def envZeroRows : String → Option String := fun k =>
  if k = "SNOWFLAKE_MAX_ROWS" then some "0" else envP k

/-- `envP` plus a non-numeric `SNOWFLAKE_MAX_ROWS`. -/
def envBadRows : String → Option String := fun k =>
  if k = "SNOWFLAKE_MAX_ROWS" then some "abc" else envP k

/-!
### Claims
-/

/-- C9: for every configuration, every world, and every query that is empty or
whitespace-only, the tool endpoint returns exactly the string
"Error: Query cannot be empty" with an empty event trace.  The statement is
universally quantified over the world, so the result is independent of the
connector: `execute_snowflake_query` is never invoked and no database call is
made. -/
theorem C9_empty_query_rejected (cfg : SnowflakeConfig) (w : World) (query : String)
    (database schema warehouse : Option String) (h : pyStrip query = "") :
    execute_snowflake_sql_query cfg w query database schema warehouse
      = ("Error: Query cannot be empty", []) := by
  unfold execute_snowflake_sql_query
  rw [if_pos (Or.inr h)]

theorem C9_empty_query_rejected_witness :
    execute_snowflake_sql_query cfgPw worldBase "   " none none none
      = ("Error: Query cannot be empty", []) :=
  C9_empty_query_rejected cfgPw worldBase "   " none none none (by decide)

/-- C2 counterexample: a configuration with BOTH a password and an existing
private-key file — two resolvable authentication methods — is accepted at
startup, refuting "accepts a configuration only if exactly one authentication
method is resolvable". -/
theorem C2_cex :
    SnowflakeConfig.init worldBadKey envTwoAuth = .ok cfgTwoAuth
    ∧ pyTruthy cfgTwoAuth.password = true
    ∧ pyTruthy cfgTwoAuth.private_key_path = true
    ∧ worldBadKey.fileExists (cfgTwoAuth.private_key_path.getD "") = true :=
  ⟨rfl, rfl, rfl, rfl⟩

/-- C2 (amended): configuration validation accepts a configuration iff AT
LEAST one authentication method is resolvable (password truthy, private-key
path truthy, or authenticator different from the "snowflake" sentinel) and,
whenever a private-key path is set, the file exists; and every configuration
accepted by startup (`SnowflakeConfig.init`) has passed this validation — so
a violation fails at startup, never at query time. -/
theorem C2_auth_validation (w : World) (cfg : SnowflakeConfig) :
    (cfg.validate_config w = .ok () ↔
      ((pyTruthy cfg.password || pyTruthy cfg.private_key_path
          || (cfg.authenticator != "snowflake")) = true
        ∧ (pyTruthy cfg.private_key_path = true →
            w.fileExists (cfg.private_key_path.getD "") = true)))
    ∧ (∀ env c, SnowflakeConfig.init w env = .ok c → c.validate_config w = .ok ()) := by
  constructor
  · unfold SnowflakeConfig.validate_config
    cases hpw : pyTruthy cfg.password <;>
      cases hk : pyTruthy cfg.private_key_path <;>
      cases hsso : cfg.authenticator != "snowflake" <;>
      cases hfe : w.fileExists (cfg.private_key_path.getD "") <;>
      simp_all
  · intro env c h
    unfold SnowflakeConfig.init at h
    split at h
    · exact absurd h (by simp)
    · split at h
      · exact absurd h (by simp)
      · split at h
        · exact absurd h (by simp)
        · dsimp only at h
          split at h
          · exact absurd h (by simp)
          · rename_i u hval
            cases h
            cases u
            exact hval

theorem C2_auth_validation_witness :
    cfgPw.validate_config worldBase = .ok ()
    ∧ cfgKeyOnly.validate_config worldBadKey = .ok () :=
  ⟨(C2_auth_validation worldBase cfgPw).1.mpr (by decide),
   (C2_auth_validation worldBadKey cfgKeyOnly).2 envKeyOnly cfgKeyOnly rfl⟩

/-- C8 counterexample: `SNOWFLAKE_MAX_ROWS=0` is parsed and ACCEPTED — the
configuration is constructed with `max_rows = 0` and no error — refuting "no
non-positive value is ever accepted as a configuration". -/
theorem C8_cex :
    SnowflakeConfig.init worldBase envZeroRows = .ok cfgZeroRows
    ∧ cfgZeroRows.max_rows = 0 :=
  ⟨rfl, rfl⟩

/-- C8 (amended): `max_rows` is parsed with Python `int` semantics and
defaults to 1000 when the environment entry is absent; a value that `int`
rejects makes startup fail with exit code 1 before serving; but any parsed
integer — including 0 and negatives — is accepted, since no positivity check
exists (see `C8_cex`). -/
theorem C8_max_rows_parsing (w : World) (env : String → Option String) :
    (env "SNOWFLAKE_MAX_ROWS" = none →
      ∀ cfg, SnowflakeConfig.init w env = .ok cfg → cfg.max_rows = 1000)
    ∧ (∀ s, env "SNOWFLAKE_MAX_ROWS" = some s → pyInt s = none →
        startupConfig w env = .error 1)
    ∧ (∀ s n, env "SNOWFLAKE_MAX_ROWS" = some s → pyInt s = some n →
        ∀ cfg, SnowflakeConfig.init w env = .ok cfg → cfg.max_rows = n) := by
  refine ⟨?_, ?_, ?_⟩
  · intro habs cfg h
    unfold SnowflakeConfig.init at h
    rw [habs] at h
    split at h
    · exact absurd h (by simp)
    · split at h
      · exact absurd h (by simp)
      · split at h
        · exact absurd h (by simp)
        · rename_i hpi
          dsimp only at h
          split at h
          · exact absurd h (by simp)
          · cases h
            have : pyInt ((none : Option String).getD "1000") = some 1000 := by decide
            rw [this] at hpi
            cases hpi
            rfl
  · intro s hs hbad
    unfold startupConfig
    split
    · rename_i c heq
      exfalso
      unfold SnowflakeConfig.init at heq
      rw [hs] at heq
      split at heq
      · exact absurd heq (by simp)
      · split at heq
        · exact absurd heq (by simp)
        · rw [show (some s).getD "1000" = s from rfl, hbad] at heq
          exact absurd heq (by simp)
    · rfl
  · intro s n hs hpi cfg h
    unfold SnowflakeConfig.init at h
    rw [hs] at h
    split at h
    · exact absurd h (by simp)
    · split at h
      · exact absurd h (by simp)
      · split at h
        · exact absurd h (by simp)
        · rename_i hpi2
          dsimp only at h
          split at h
          · exact absurd h (by simp)
          · cases h
            rw [show (some s).getD "1000" = s from rfl, hpi] at hpi2
            cases hpi2
            rfl

theorem C8_max_rows_parsing_witness :
    cfgPw1000.max_rows = 1000
    ∧ startupConfig worldBase envBadRows = .error 1
    ∧ cfgZeroRows.max_rows = 0 :=
  ⟨(C8_max_rows_parsing worldBase envP).1 rfl cfgPw1000 rfl,
   (C8_max_rows_parsing worldBase envBadRows).2.1 "abc" rfl (by decide),
   (C8_max_rows_parsing worldBase envZeroRows).2.2 "0" 0 rfl (by decide) cfgZeroRows rfl⟩

/-- C5 counterexample: `cfgSSO` is a VALID configuration (non-default
authenticator), yet `get_connection_params` adds NEITHER `password` nor
`private_key` — refuting "adds exactly one of the fields password or
private_key" for every valid configuration. -/
theorem C5_cex :
    cfgSSO.validate_config worldBase = .ok ()
    ∧ cfgSSO.get_connection_params worldBase = .ok pSSO
    ∧ pSSO.password = none
    ∧ pSSO.private_key = none :=
  ⟨rfl, rfl, rfl, rfl⟩

/-- C5 (amended): `get_connection_params` adds AT MOST one of `password` /
`private_key`, and exactly one whenever a password or a private-key path is
set: a truthy password is passed through and no private key is attached; with
no password and a truthy key path, the decoded key is attached and no
password; with neither (SSO-only configurations, see `C5_cex`), neither field
is added.  Mutual exclusivity holds for all configurations. -/
theorem C5_auth_param_exclusivity (cfg : SnowflakeConfig) (w : World) (p : ConnParams)
    (hp : cfg.get_connection_params w = .ok p) :
    ¬(p.password.isSome = true ∧ p.private_key.isSome = true)
    ∧ (pyTruthy cfg.password = true → p.password = cfg.password ∧ p.private_key = none)
    ∧ (pyTruthy cfg.password = false → pyTruthy cfg.private_key_path = true →
        p.password = none ∧ ∃ k, cfg.load_private_key w = .ok k ∧ p.private_key = some k)
    ∧ (pyTruthy cfg.password = false → pyTruthy cfg.private_key_path = false →
        p.password = none ∧ p.private_key = none) := by
  unfold SnowflakeConfig.get_connection_params at hp
  by_cases hpw : pyTruthy cfg.password = true
  · rw [if_pos hpw] at hp
    cases hp
    exact ⟨by simp, fun _ => ⟨rfl, rfl⟩,
      fun h _ => absurd hpw (by simp [h]),
      fun h _ => absurd hpw (by simp [h])⟩
  · rw [if_neg hpw] at hp
    by_cases hk : pyTruthy cfg.private_key_path = true
    · rw [if_pos hk] at hp
      cases hload : cfg.load_private_key w <;> rw [hload] at hp
      · exact absurd hp (by simp)
      · rename_i k
        cases hp
        exact ⟨by simp, fun h => absurd h hpw,
          fun _ _ => ⟨rfl, k, rfl, rfl⟩,
          fun _ hk2 => absurd hk (by simp [hk2])⟩
    · rw [if_neg hk] at hp
      cases hp
      exact ⟨by simp, fun h => absurd h hpw,
        fun _ h => absurd h hk,
        fun _ _ => ⟨rfl, rfl⟩⟩

theorem C5_auth_param_exclusivity_witness :
    (¬(pPw.password.isSome = true ∧ pPw.private_key.isSome = true)
      ∧ (pPw.password = cfgPw.password ∧ pPw.private_key = none))
    ∧ (pKey.password = none
      ∧ ∃ k, cfgKeyOnly.load_private_key worldGoodKey = .ok k ∧ pKey.private_key = some k) :=
  ⟨⟨(C5_auth_param_exclusivity cfgPw worldBase pPw rfl).1,
    (C5_auth_param_exclusivity cfgPw worldBase pPw rfl).2.1 rfl⟩,
   (C5_auth_param_exclusivity cfgKeyOnly worldGoodKey pKey rfl).2.2.1 rfl rfl⟩

/-- C3 counterexample: with key-pair auth and a key file that EXISTS but does
not decode, startup succeeds (only existence is checked eagerly), and the
decode failure surfaces at query time as a SYSTEM_ERROR result returned to
the caller — not as a startup-fatal CONFIG_ERROR that exits before serving,
refuting the claim. -/
theorem C3_cex :
    SnowflakeConfig.init worldBadKey envKeyOnly = .ok cfgKeyOnly
    ∧ (execute_snowflake_query cfgKeyOnly worldBadKey "SELECT 1" none none none).1
        = { success := false, sql_query := "SELECT 1"
            error := some "Unexpected error: Failed to load private key from /k.pem: Could not deserialize key data"
            error_type := some "SYSTEM_ERROR" } :=
  ⟨rfl, rfl⟩

/-- C3 (amended): under key-pair authentication (no password, key path set),
a failure to read or decode the private-key file surfaces as a `ValueError`
whose message carries the file path and the underlying cause; it aborts
`get_connection_params` (never falling back to another authentication
method), and at query time the generic handler returns it to the caller as a
SYSTEM_ERROR outcome — the process keeps serving; it is not startup-fatal,
because startup only checks that the key file exists (see `C3_cex`). -/
theorem C3_key_load_failure (cfg : SnowflakeConfig) (w : World) (sql : String)
    (database schema warehouse : Option String) (e : PyExc)
    (hnp : pyTruthy cfg.password = false)
    (hk : pyTruthy cfg.private_key_path = true)
    (hl : cfg.load_private_key w = .error e) :
    (∃ cause, e = PyExc.valueError ("Failed to load private key from "
        ++ cfg.private_key_path.getD "" ++ ": " ++ cause))
    ∧ cfg.get_connection_params w = .error e
    ∧ (execute_snowflake_query cfg w sql database schema warehouse).1
        = { success := false, sql_query := sql
            error := some ("Unexpected error: " ++ e.msg)
            error_type := some "SYSTEM_ERROR" } := by
  have hshape : ∃ cause, e = PyExc.valueError ("Failed to load private key from "
      ++ cfg.private_key_path.getD "" ++ ": " ++ cause) := by
    unfold SnowflakeConfig.load_private_key at hl
    dsimp only at hl
    cases hfs : w.fsRead (cfg.private_key_path.getD "") <;> rw [hfs] at hl <;> dsimp only at hl
    · rename_i err
      cases hl
      exact ⟨err, rfl⟩
    · rename_i data
      cases hdk : w.decodeKey data
          (if pyTruthy cfg.private_key_passphrase then cfg.private_key_passphrase else none) <;>
        rw [hdk] at hl <;> dsimp only at hl
      · rename_i err
        cases hl
        exact ⟨err, rfl⟩
      · exact absurd hl (by simp)
  have hgp : cfg.get_connection_params w = .error e := by
    unfold SnowflakeConfig.get_connection_params
    rw [if_neg (by rw [hnp]; simp), if_pos hk, hl]
  refine ⟨hshape, hgp, ?_⟩
  obtain ⟨cause, rfl⟩ := hshape
  unfold execute_snowflake_query
  rw [hgp]
  simp [classifyError, PyExc.isProgrammingError, PyExc.isDatabaseError, PyExc.msg]

theorem C3_key_load_failure_witness :
    cfgKeyOnly.get_connection_params worldBadKey
      = .error (PyExc.valueError
          "Failed to load private key from /k.pem: Could not deserialize key data")
    ∧ (execute_snowflake_query cfgKeyOnly worldBadKey "SELECT 2" none none none).1
        = { success := false, sql_query := "SELECT 2"
            error := some ("Unexpected error: "
              ++ (PyExc.valueError
                "Failed to load private key from /k.pem: Could not deserialize key data").msg)
            error_type := some "SYSTEM_ERROR" } :=
  ⟨(C3_key_load_failure cfgKeyOnly worldBadKey "SELECT 2" none none none
      (PyExc.valueError "Failed to load private key from /k.pem: Could not deserialize key data")
      rfl rfl rfl).2.1,
   (C3_key_load_failure cfgKeyOnly worldBadKey "SELECT 2" none none none
      (PyExc.valueError "Failed to load private key from /k.pem: Could not deserialize key data")
      rfl rfl rfl).2.2⟩

/-- The cleanup block never submits SQL: its trace holds only close events. -/
theorem executedSQL_not_mem_cleanupEvents (w : World) (a b : Bool) (s : String) :
    Event.executedSQL s ∉ cleanupEvents w a b := by
  unfold cleanupEvents
  cases a <;> cases b <;> simp <;> cases w.closeCursor <;> simp

/-- C4 counterexample: for a caller query with surrounding whitespace, the
endpoint submits the STRIPPED text to the database, so the submitted SQL
differs from the query text the caller passed — refuting exact verbatim
submission at the endpoint boundary. -/
theorem C4_cex :
    Event.executedSQL "SELECT 1"
      ∈ (execute_snowflake_sql_query cfgPw worldC1 " SELECT 1 " none none none).2
    ∧ Event.executedSQL " SELECT 1 "
      ∉ (execute_snowflake_sql_query cfgPw worldC1 " SELECT 1 " none none none).2 := by
  constructor
  · decide
  · decide

/-- C4 (amended): the executor submits its statement argument verbatim — no
parsing, rewriting or LIMIT injection — and the endpoint passes the callers
query with surrounding whitespace STRIPPED, the one transformation applied
(see `C4_cex`): whenever the database is reached, the submitted SQL text is
exactly `pyStrip query`, and nothing else is ever submitted as the callers
statement. -/
theorem C4_verbatim_modulo_strip (cfg : SnowflakeConfig) (w : World) (query : String)
    (database schema warehouse : Option String) (p : ConnParams)
    (hne : ¬(query = "" ∨ pyStrip query = ""))
    (hp : cfg.get_connection_params w = .ok p)
    (hc : w.connect (applyOverrides p database schema warehouse) = .ok ()) :
    (∀ sql s, Event.executedSQL s
        ∈ (execute_snowflake_query cfg w sql database schema warehouse).2 → s = sql)
    ∧ Event.executedSQL (pyStrip query)
        ∈ (execute_snowflake_sql_query cfg w query database schema warehouse).2
    ∧ (∀ s, Event.executedSQL s
        ∈ (execute_snowflake_sql_query cfg w query database schema warehouse).2 →
        s = pyStrip query) := by
  have hexec : ∀ sql s, Event.executedSQL s
      ∈ (execute_snowflake_query cfg w sql database schema warehouse).2 → s = sql := by
    intro sql s hmem
    unfold execute_snowflake_query at hmem
    rw [hp] at hmem
    dsimp only at hmem
    rw [hc] at hmem
    rcases hq : w.runQuery (applyOverrides p database schema warehouse) sql <;>
      rw [hq] at hmem <;> dsimp only at hmem <;>
      simp only [List.mem_cons] at hmem
    · rcases hmem with h | h | h
      · exact (Event.executedSQL.inj h)
      · exact absurd h (by simp)
      · exact absurd h (executedSQL_not_mem_cleanupEvents w true true s)
    · rcases hmem with h | h
      · exact (Event.executedSQL.inj h)
      · exact absurd h (executedSQL_not_mem_cleanupEvents w true true s)
    · rcases hmem with h | h
      · exact (Event.executedSQL.inj h)
      · exact absurd h (executedSQL_not_mem_cleanupEvents w true true s)
  have hmem : Event.executedSQL (pyStrip query)
      ∈ (execute_snowflake_sql_query cfg w query database schema warehouse).2 := by
    unfold execute_snowflake_sql_query
    rw [if_neg hne]
    dsimp only
    unfold execute_snowflake_query
    rw [hp]
    dsimp only
    rw [hc]
    rcases hq : w.runQuery (applyOverrides p database schema warehouse) (pyStrip query) <;>
      simp
  refine ⟨hexec, hmem, ?_⟩
  intro s hs
  unfold execute_snowflake_sql_query at hs
  rw [if_neg hne] at hs
  exact hexec (pyStrip query) s hs

theorem C4_verbatim_modulo_strip_witness :
    Event.executedSQL "SELECT 7"
      ∈ (execute_snowflake_sql_query cfgPw worldC1 " SELECT 7" none none none).2 :=
  (C4_verbatim_modulo_strip cfgPw worldC1 " SELECT 7" none none none pPw
    (by decide) rfl rfl).2.1

/-- C6: when the executed statement raises, the outcome is produced by the
mutually exclusive first-match-wins handler chain: a `ProgrammingError`
(query syntax/semantic failure) yields SQL_ERROR, any other `DatabaseError`
yields DATABASE_ERROR, anything else yields SYSTEM_ERROR; in every case the
error message is the driver text verbatim behind a short category label,
the formatted failure header names the error kind, and an SQL_ERROR carries
the syntax-tip list. -/
theorem C6_error_classification (cfg : SnowflakeConfig) (w : World) (sql : String)
    (database schema warehouse : Option String) (p : ConnParams) (e : PyExc)
    (hp : cfg.get_connection_params w = .ok p)
    (hc : w.connect (applyOverrides p database schema warehouse) = .ok ())
    (hq : w.runQuery (applyOverrides p database schema warehouse) sql = .raises e) :
    (execute_snowflake_query cfg w sql database schema warehouse).1 = classifyError e sql
    ∧ (e.isProgrammingError = true →
        (classifyError e sql).error_type = some "SQL_ERROR"
        ∧ (classifyError e sql).error = some ("SQL Error: " ++ e.msg))
    ∧ (e.isProgrammingError = false → e.isDatabaseError = true →
        (classifyError e sql).error_type = some "DATABASE_ERROR"
        ∧ (classifyError e sql).error = some ("Database Error: " ++ e.msg))
    ∧ (e.isDatabaseError = false →
        (classifyError e sql).error_type = some "SYSTEM_ERROR"
        ∧ (classifyError e sql).error = some ("Unexpected error: " ++ e.msg))
    ∧ (format_error_lines (classifyError e sql)).head?
        = some ("❌ Query failed ("
            ++ ((classifyError e sql).error_type.getD "UNKNOWN_ERROR") ++ ")")
    ∧ ((classifyError e sql).error_type = some "SQL_ERROR" →
        "- Check your SQL syntax" ∈ format_error_lines (classifyError e sql)) := by
  refine ⟨?_, ?_, ?_, ?_, ?_, ?_⟩
  · unfold execute_snowflake_query
    rw [hp]
    dsimp only
    rw [hc, hq]
  · intro hprog
    cases e <;> simp_all [classifyError, PyExc.isProgrammingError, PyExc.msg]
  · intro hprog hdb
    cases e <;> simp_all [classifyError, PyExc.isProgrammingError, PyExc.isDatabaseError, PyExc.msg]
  · intro hdb
    cases e <;> simp_all [classifyError, PyExc.isProgrammingError, PyExc.isDatabaseError, PyExc.msg]
  · cases e <;> simp [classifyError, format_error_lines, PyExc.isProgrammingError,
      PyExc.isDatabaseError]
  · intro hty
    cases e <;> simp_all [classifyError, format_error_lines, PyExc.isProgrammingError,
      PyExc.isDatabaseError]

theorem C6_error_classification_witness :
    (execute_snowflake_query cfgPw worldC6 "SELEC 1" none none none).1
      = classifyError (PyExc.programmingError "syntax error line 1") "SELEC 1"
    ∧ (classifyError (PyExc.programmingError "syntax error line 1") "SELEC 1").error_type
      = some "SQL_ERROR"
    ∧ "- Check your SQL syntax"
      ∈ format_error_lines (classifyError (PyExc.programmingError "syntax error line 1") "SELEC 1") :=
  ⟨(C6_error_classification cfgPw worldC6 "SELEC 1" none none none pPw
      (PyExc.programmingError "syntax error line 1") rfl rfl rfl).1,
   ((C6_error_classification cfgPw worldC6 "SELEC 1" none none none pPw
      (PyExc.programmingError "syntax error line 1") rfl rfl rfl).2.1 rfl).1,
   (C6_error_classification cfgPw worldC6 "SELEC 1" none none none pPw
      (PyExc.programmingError "syntax error line 1") rfl rfl rfl).2.2.2.2.2 rfl⟩

/-- C7 counterexample: on a run where `cursor.close()` raises, the single
try/except of the `finally` block swallows the exception and never reaches
`conn.close()` — the connection that was opened is NOT released before the
function returns, refuting "both the cursor and the connection ... are
released" on every exit path. -/
theorem C7_cex :
    Event.executedSQL "SELECT 1"
      ∈ (execute_snowflake_query cfgPw worldBadClose "SELECT 1" none none none).2
    ∧ Event.cursorCloseCalled
      ∈ (execute_snowflake_query cfgPw worldBadClose "SELECT 1" none none none).2
    ∧ Event.connCloseCalled
      ∉ (execute_snowflake_query cfgPw worldBadClose "SELECT 1" none none none).2 := by
  refine ⟨by decide, by decide, by decide⟩

/-- C7 (amended): cleanup runs on every exit path and its failures are
swallowed, never re-raised — the returned outcome does not depend on whether
either close raises; whenever the cursor and connection were opened (an
`executedSQL` event exists), the cursor close is always attempted, and the
connection close is attempted provided the cursor close does not raise.  If
the cursor close raises, the connection close is skipped (see `C7_cex`). -/
theorem C7_resource_cleanup (cfg : SnowflakeConfig) (w : World) (sql : String)
    (database schema warehouse : Option String) :
    (∀ c1 c2, (execute_snowflake_query cfg
        { w with closeCursor := c1, closeConn := c2 } sql database schema warehouse).1
      = (execute_snowflake_query cfg w sql database schema warehouse).1)
    ∧ (∀ s, Event.executedSQL s
        ∈ (execute_snowflake_query cfg w sql database schema warehouse).2 →
        Event.cursorCloseCalled
          ∈ (execute_snowflake_query cfg w sql database schema warehouse).2)
    ∧ (w.closeCursor = .ok () →
        ∀ s, Event.executedSQL s
          ∈ (execute_snowflake_query cfg w sql database schema warehouse).2 →
        Event.connCloseCalled
          ∈ (execute_snowflake_query cfg w sql database schema warehouse).2) := by
  have hcur : Event.cursorCloseCalled ∈ cleanupEvents w true true := by
    unfold cleanupEvents
    cases w.closeCursor <;> simp
  have hconn : w.closeCursor = .ok () → Event.connCloseCalled ∈ cleanupEvents w true true := by
    intro hok
    unfold cleanupEvents
    rw [hok]
    simp
  refine ⟨?_, ?_, ?_⟩
  · intro c1 c2
    unfold execute_snowflake_query
    have h1 : cfg.get_connection_params { w with closeCursor := c1, closeConn := c2 }
        = cfg.get_connection_params w := rfl
    rw [h1]
    rcases hgp : cfg.get_connection_params w with e | params
    · rfl
    · dsimp only
      rcases hcn : w.connect (applyOverrides params database schema warehouse) with e | u
      · rfl
      · rcases hq : w.runQuery (applyOverrides params database schema warehouse) sql <;> rfl
  · intro s hmem
    unfold execute_snowflake_query at hmem ⊢
    rcases hgp : cfg.get_connection_params w with e | params <;>
      rw [hgp] at hmem <;> dsimp only at hmem ⊢
    · exact absurd hmem (executedSQL_not_mem_cleanupEvents w false false s)
    · rcases hcn : w.connect (applyOverrides params database schema warehouse) with e | u <;>
        rw [hcn] at hmem <;> dsimp only at hmem ⊢
      · exact absurd hmem (executedSQL_not_mem_cleanupEvents w false false s)
      · rcases hq : w.runQuery (applyOverrides params database schema warehouse) sql <;>
          rw [hq] at hmem <;> dsimp only at hmem ⊢ <;> simp [hcur]
  · intro hok s hmem
    unfold execute_snowflake_query at hmem ⊢
    rcases hgp : cfg.get_connection_params w with e | params <;>
      rw [hgp] at hmem <;> dsimp only at hmem ⊢
    · exact absurd hmem (executedSQL_not_mem_cleanupEvents w false false s)
    · rcases hcn : w.connect (applyOverrides params database schema warehouse) with e | u <;>
        rw [hcn] at hmem <;> dsimp only at hmem ⊢
      · exact absurd hmem (executedSQL_not_mem_cleanupEvents w false false s)
      · rcases hq : w.runQuery (applyOverrides params database schema warehouse) sql <;>
          rw [hq] at hmem <;> dsimp only at hmem ⊢ <;> simp [hconn hok]

theorem C7_resource_cleanup_witness :
    (execute_snowflake_query cfgPw
        { worldC1 with closeCursor := Except.error "x", closeConn := Except.error "y" }
        "SELECT 1" none none none).1
      = (execute_snowflake_query cfgPw worldC1 "SELECT 1" none none none).1
    ∧ Event.connCloseCalled
      ∈ (execute_snowflake_query cfgPw worldC1 "SELECT 1" none none none).2 :=
  ⟨(C7_resource_cleanup cfgPw worldC1 "SELECT 1" none none none).1
      (Except.error "x") (Except.error "y"),
   (C7_resource_cleanup cfgPw worldC1 "SELECT 1" none none none).2.2 rfl "SELECT 1"
      (by decide)⟩

/-- On the tabular path, the executor returns `tabularOutcome`. -/
theorem execute_tabular_eq (cfg : SnowflakeConfig) (w : World) (sql : String)
    (database schema warehouse : Option String) (p : ConnParams)
    (columns : List String) (rows : List (List String))
    (hp : cfg.get_connection_params w = .ok p)
    (hc : w.connect (applyOverrides p database schema warehouse) = .ok ())
    (hq : w.runQuery (applyOverrides p database schema warehouse) sql
        = .tabular columns rows) :
    (execute_snowflake_query cfg w sql database schema warehouse).1
      = tabularOutcome cfg w (applyOverrides p database schema warehouse) sql columns rows := by
  unfold execute_snowflake_query
  rw [hp]
  dsimp only
  rw [hc, hq]

/-- On the DDL/DML path, the executor returns `dmlOutcome`. -/
theorem execute_dml_eq (cfg : SnowflakeConfig) (w : World) (sql : String)
    (database schema warehouse : Option String) (p : ConnParams) (rowcount : Int)
    (hp : cfg.get_connection_params w = .ok p)
    (hc : w.connect (applyOverrides p database schema warehouse) = .ok ())
    (hq : w.runQuery (applyOverrides p database schema warehouse) sql = .dml rowcount) :
    (execute_snowflake_query cfg w sql database schema warehouse).1
      = dmlOutcome (applyOverrides p database schema warehouse) sql rowcount := by
  unfold execute_snowflake_query
  rw [hp]
  dsimp only
  rw [hc, hq]

/-- C1: on every tabular query, the executor fetches at most `max_rows` rows
(`row_count = min max_rows sourceRows` and, for a non-negative cap, at most
`max_rows`); when the source has MORE than `max_rows` rows the outcome has
`truncated = true` and `total_rows` equal to the fetched count followed by
"+", and the formatted text carries the "showing first <row_count>" results
line; when the source has exactly `max_rows` or fewer rows, the outcome has
`truncated = false` and `total_rows` equal to the exact fetched count. -/
theorem C1_row_cap_truncation (cfg : SnowflakeConfig) (w : World) (sql : String)
    (database schema warehouse : Option String) (p : ConnParams)
    (columns : List String) (rows : List (List String))
    (hmr : 0 ≤ cfg.max_rows)
    (hp : cfg.get_connection_params w = .ok p)
    (hc : w.connect (applyOverrides p database schema warehouse) = .ok ())
    (hq : w.runQuery (applyOverrides p database schema warehouse) sql
        = .tabular columns rows) :
    (execute_snowflake_query cfg w sql database schema warehouse).1.row_count
        = some (min cfg.max_rows.toNat rows.length)
    ∧ ((min cfg.max_rows.toNat rows.length : Int) ≤ cfg.max_rows)
    ∧ (cfg.max_rows.toNat < rows.length →
        (execute_snowflake_query cfg w sql database schema warehouse).1.truncated = some true
        ∧ (execute_snowflake_query cfg w sql database schema warehouse).1.total_rows
            = some (toString cfg.max_rows.toNat ++ "+")
        ∧ ("Results: " ++ (toString cfg.max_rows.toNat ++ "+") ++ " rows (showing first "
              ++ toString cfg.max_rows.toNat ++ "), " ++ toString columns.length ++ " columns")
            ∈ format_success_lines cfg w
                (execute_snowflake_query cfg w sql database schema warehouse).1)
    ∧ (rows.length ≤ cfg.max_rows.toNat →
        (execute_snowflake_query cfg w sql database schema warehouse).1.truncated = some false
        ∧ (execute_snowflake_query cfg w sql database schema warehouse).1.total_rows
            = some (toString rows.length)) := by
  rw [execute_tabular_eq cfg w sql database schema warehouse p columns rows hp hc hq]
  refine ⟨?_, ?_, ?_, ?_⟩
  · simp [tabularOutcome]
  · have h1 : min cfg.max_rows.toNat rows.length ≤ cfg.max_rows.toNat := Nat.min_le_left _ _
    omega
  · intro hlt
    have htr2 : rows[cfg.max_rows.toNat]?.isSome = true := by
      rw [List.getElem?_eq_getElem hlt]
      rfl
    have hmin : min cfg.max_rows.toNat rows.length = cfg.max_rows.toNat :=
      Nat.min_eq_left (Nat.le_of_lt hlt)
    refine ⟨?_, ?_, ?_⟩
    · simp [tabularOutcome, htr2]
    · simp [tabularOutcome, htr2, hmin]
    · simp [format_success_lines, result_summary_lines, tabularOutcome, htr2, hmin]
  · intro hle
    have hnone : rows[cfg.max_rows.toNat]? = none := List.getElem?_eq_none hle
    have hmin : min cfg.max_rows.toNat rows.length = rows.length := Nat.min_eq_right hle
    constructor
    · simp [tabularOutcome, hnone]
    · simp [tabularOutcome, hnone, hmin]

theorem C1_row_cap_truncation_witness :
    (execute_snowflake_query cfgPw worldC1 "SELECT 1" none none none).1.row_count = some 2
    ∧ ((2 : Int) ≤ cfgPw.max_rows)
    ∧ (execute_snowflake_query cfgPw worldC1 "SELECT 1" none none none).1.truncated = some true
    ∧ (execute_snowflake_query cfgPw worldC1 "SELECT 1" none none none).1.total_rows = some "2+"
    ∧ "Results: 2+ rows (showing first 2), 1 columns"
        ∈ format_success_lines cfgPw worldC1
            (execute_snowflake_query cfgPw worldC1 "SELECT 1" none none none).1 :=
  have h := C1_row_cap_truncation cfgPw worldC1 "SELECT 1" none none none pPw
    ["A"] [["1"], ["2"], ["3"]] (by decide) rfl rfl rfl
  ⟨h.1, h.2.1, (h.2.2.1 (by decide)).1, (h.2.2.1 (by decide)).2.1, (h.2.2.1 (by decide)).2.2⟩

/-- C10: the success formatter branches on the PRESENCE of the
`affected_rows` field, not its value.  Every DDL/DML outcome carries
`affected_rows` (the connector rowcount, clamped to a non-negative value),
its result-summary block is exactly the "Rows affected: <n>" line — present
even when n = 0 — and no line of its formatted text is a "Results: ..." line;
every tabular outcome carries no `affected_rows` field and (provided the
free-form rendered row data itself does not start a line block with "Rows
affected") no line of its formatted text starts with "Rows affected". -/
theorem C10_affected_rows_branching (cfg : SnowflakeConfig) (w : World) (sql : String)
    (database schema warehouse : Option String) (p : ConnParams)
    (hp : cfg.get_connection_params w = .ok p)
    (hc : w.connect (applyOverrides p database schema warehouse) = .ok ()) :
    (∀ rowcount : Int,
      w.runQuery (applyOverrides p database schema warehouse) sql = .dml rowcount →
      (execute_snowflake_query cfg w sql database schema warehouse).1.affected_rows
          = some (if 0 ≤ rowcount then rowcount else 0)
      ∧ (0 : Int) ≤ (if 0 ≤ rowcount then rowcount else 0)
      ∧ result_summary_lines (execute_snowflake_query cfg w sql database schema warehouse).1
          = ["Rows affected: " ++ toString (if 0 ≤ rowcount then rowcount else 0)]
      ∧ ("Rows affected: " ++ toString (if 0 ≤ rowcount then rowcount else 0))
          ∈ format_success_lines cfg w
              (execute_snowflake_query cfg w sql database schema warehouse).1
      ∧ (∀ l ∈ format_success_lines cfg w
            (execute_snowflake_query cfg w sql database schema warehouse).1,
          ¬ strHasPrefix "Results: " l))
    ∧ (∀ columns rows,
      w.runQuery (applyOverrides p database schema warehouse) sql = .tabular columns rows →
      (execute_snowflake_query cfg w sql database schema warehouse).1.affected_rows = none
      ∧ (¬ strHasPrefix "Rows affected"
            (renderDF { columns := columns, rows := rows.take cfg.max_rows.toNat }) →
         ∀ l ∈ format_success_lines cfg w
             (execute_snowflake_query cfg w sql database schema warehouse).1,
           ¬ strHasPrefix "Rows affected" l)) := by
  constructor
  · intro rowcount hdml
    rw [execute_dml_eq cfg w sql database schema warehouse p rowcount hp hc hdml]
    refine ⟨?_, ?_, ?_, ?_, ?_⟩
    · simp [dmlOutcome]
    · by_cases hn : (0 : Int) ≤ rowcount <;> simp [hn]
    · simp [result_summary_lines, dmlOutcome]
    · simp [format_success_lines, result_summary_lines, dmlOutcome]
    · intro l hl
      cases hro : w.renderOk <;>
        simp only [format_success_lines, result_summary_lines, dmlOutcome, hro,
          Option.getD_some, Bool.false_eq_true, if_false, if_true, Bool.true_eq_false,
          List.append_nil, List.cons_append, List.nil_append, List.mem_cons,
          List.mem_singleton, List.not_mem_nil, or_false] at hl
      · rcases hl with rfl | rfl | rfl | rfl | rfl | rfl | rfl | rfl | rfl | rfl | rfl | rfl <;>
          first
            | exact not_strHasPrefix_of_short (by decide)
            | exact not_strHasPrefix_two rfl rfl (by decide)
      · rcases hl with rfl | rfl | rfl | rfl | rfl | rfl | rfl | rfl | rfl | rfl <;>
          first
            | exact not_strHasPrefix_of_short (by decide)
            | exact not_strHasPrefix_two rfl rfl (by decide)
  · intro columns rows htab
    rw [execute_tabular_eq cfg w sql database schema warehouse p columns rows hp hc htab]
    refine ⟨by simp [tabularOutcome], ?_⟩
    intro hren l hl
    rcases htr : rows[cfg.max_rows.toNat]? with _ | r <;>
      cases hro : w.renderOk <;>
      simp only [format_success_lines, result_summary_lines, tabularOutcome, hro, htr,
        List.head?_drop, Option.isSome_some, Option.isSome_none, Option.getD_some,
        Bool.false_eq_true, if_false, if_true, Bool.true_eq_false,
        List.append_nil, List.cons_append, List.nil_append, List.mem_cons,
        List.mem_singleton, List.not_mem_nil, or_false] at hl
    · rcases hl with rfl | rfl | rfl | rfl | rfl | rfl | rfl | rfl | rfl | rfl | rfl | rfl <;>
        first
          | exact hren
          | exact not_strHasPrefix_of_short (by decide)
          | exact not_strHasPrefix_two rfl rfl (by decide)
    · rcases hl with rfl | rfl | rfl | rfl | rfl | rfl | rfl | rfl | rfl | rfl <;>
        first
          | exact hren
          | exact not_strHasPrefix_of_short (by decide)
          | exact not_strHasPrefix_two rfl rfl (by decide)
    · rcases hl with rfl | rfl | rfl | rfl | rfl | rfl | rfl | rfl | rfl | rfl | rfl | rfl | rfl | rfl | rfl <;>
        first
          | exact hren
          | exact not_strHasPrefix_of_short (by decide)
          | exact not_strHasPrefix_two rfl rfl (by decide)
    · rcases hl with rfl | rfl | rfl | rfl | rfl | rfl | rfl | rfl | rfl | rfl | rfl | rfl | rfl <;>
        first
          | exact hren
          | exact not_strHasPrefix_of_short (by decide)
          | exact not_strHasPrefix_two rfl rfl (by decide)

theorem C10_affected_rows_branching_witness :
    (execute_snowflake_query cfgPw worldDmlNeg "DELETE FROM t" none none none).1.affected_rows
        = some 0
    ∧ ("Rows affected: " ++ toString (0 : Int))
        ∈ format_success_lines cfgPw worldDmlNeg
            (execute_snowflake_query cfgPw worldDmlNeg "DELETE FROM t" none none none).1
    ∧ (execute_snowflake_query cfgPw worldC1 "SELECT 1" none none none).1.affected_rows
        = none :=
  ⟨((C10_affected_rows_branching cfgPw worldDmlNeg "DELETE FROM t" none none none pPw
      rfl rfl).1 (-3) rfl).1,
   ((C10_affected_rows_branching cfgPw worldDmlNeg "DELETE FROM t" none none none pPw
      rfl rfl).1 (-3) rfl).2.2.2.1,
   ((C10_affected_rows_branching cfgPw worldC1 "SELECT 1" none none none pPw
      rfl rfl).2 ["A"] [["1"], ["2"], ["3"]] rfl).1⟩
